import Mathlib

/-!
Shallow embedding of `pygrabber/dshow_graph.py` (python_grabber).

The program is a thin binding over the Windows DirectShow COM framework.
The native side (COM objects, pins, media types, enumerators) is modelled
abstractly: a pin is an opaque identifier, and every native call outcome a
method depends on (FindPin results, EnumPins streams, connected media type
resolution, class enumerators) is carried as data in the model, so each
Python method becomes a pure function of the Python-visible state plus those
native outcomes. Python exceptions (AssertionError, KeyError, IndexError,
AttributeError, ValueError, COMError) are modelled with `Except PyErr`.
`graph_builder.Connect(out_pin, in_pin)` is recorded by appending the pair
to a connection list: the claims under study are about which pin pairs the
binding asks the graph builder to connect, in which order.
-/

namespace PyGrabber

/-- Opaque identifier for a DirectShow pin (an `IPin` COM pointer). -/
abbrev Pin := Nat

/-- `class RecordingFormat(Enum)` from the source. -/
inductive RecordingFormat
  | AVI
  | ASF
deriving DecidableEq, Repr

/-- `class FilterType(Enum)` from the source. -/
inductive FilterType
  | video_input
  | audio_input
  | video_compressor
  | audio_compressor
  | sample_grabber
  | render
  | file_sink
  | muxer
  | smart_tee
deriving DecidableEq, Repr

/-- The two media-subtype GUID constants of `dshow_ids.MediaSubtypes` that
`add_file_writer_and_muxer` chooses between; their GUID strings are
irrelevant to the claims, only their identity matters. -/
inductive MediaSubtype
  | ASF
  | AVI
deriving DecidableEq, Repr

/-- A COM error as raised by comtypes (`COMError`), identified by its HRESULT. -/
structure ComError where
  hresult : Int
deriving DecidableEq, Repr

/-- Python exceptions the embedded methods can raise. -/
inductive PyErr
  | assertionError
  | keyError
  | indexError
  | attributeError
  | valueError
  | comError (e : ComError)
deriving DecidableEq, Repr

/-- `class SampleGrabberCallback(COMObject)`: the Python-visible state of the
sample grabber callback object (`self.cnt`, `self.keep_photo`,
`self.image_resolution`). -/
structure SampleGrabberCallback where
  cnt : Nat
  keep_photo : Bool
  image_resolution : Nat × Nat
deriving DecidableEq, Repr

/-- `SampleGrabberCallback.__init__`: `cnt = 0`, `keep_photo = False`,
`image_resolution = (0, 0)`. -/
def SampleGrabberCallback.init : SampleGrabberCallback :=
  { cnt := 0, keep_photo := false, image_resolution := (0, 0) }

/-- `SampleGrabberCallback.grab_frame`: `self.keep_photo = True`. -/
def SampleGrabberCallback.grab_frame (s : SampleGrabberCallback) : SampleGrabberCallback :=
  { s with keep_photo := true }

instance {ε α : Type} [DecidableEq ε] [DecidableEq α] : DecidableEq (Except ε α) := fun a b =>
  match a, b with
  | Except.ok x, Except.ok y =>
    if h : x = y then Decidable.isTrue (by rw [h])
    else Decidable.isFalse (by intro hc; cases hc; exact h rfl)
  | Except.ok _, Except.error _ => Decidable.isFalse (by intro hc; cases hc)
  | Except.error _, Except.ok _ => Decidable.isFalse (by intro hc; cases hc)
  | Except.error x, Except.error y =>
    if h : x = y then Decidable.isTrue (by rw [h])
    else Decidable.isFalse (by intro hc; cases hc; exact h rfl)

/-- `class Filter`: wrapper around a DirectShow filter. `Name`, `out_pins`
and `in_pins` are the Python attributes. The remaining fields carry the
outcomes of the native calls the wrapped COM object would answer:
`enum_pins` is the stream `EnumPins` yields (each pin with its
`QueryDirection` result), `find_preview` / `find_capture` are the outcomes
of `capture_builder.FindPin(instance, PIN_OUT, PinCategory.Preview/Capture,
...)`, `callback` is the `SampleGrabber.callback` attribute (None until
`set_callback`), and `connected_resolution` is the `(biWidth, biHeight)`
the connected media type reports (`SampleGrabber.get_resolution`). -/
structure Filter where
  Name : String
  out_pins : List Pin
  in_pins : List Pin
  enum_pins : List (Pin × Nat) := []
  find_preview : Except ComError Pin := Except.error ⟨0⟩
  find_capture : Except ComError Pin := Except.error ⟨0⟩
  callback : Option SampleGrabberCallback := none
  connected_resolution : Nat × Nat := (0, 0)
deriving DecidableEq, Repr

/-- `Filter.get_out`: `return self.out_pins[0]` (IndexError when empty). -/
def Filter.get_out (f : Filter) : Except PyErr Pin :=
  match f.out_pins with
  | [] => Except.error PyErr.indexError
  | p :: _ => Except.ok p

/-- `Filter.get_in(index=0)`: `return self.in_pins[index]`. -/
def Filter.get_in (f : Filter) (index : Nat := 0) : Except PyErr Pin :=
  match f.in_pins.get? index with
  | some p => Except.ok p
  | none => Except.error PyErr.indexError

/-- `Filter.find_pin`: calls `capture_builder.FindPin` and returns its pin,
but catches `COMError` and returns `None` ("assuming preview pin not
found"). The argument is the native call's outcome. -/
def Filter.find_pin (native : Except ComError Pin) : Option Pin :=
  match native with
  | Except.ok p => some p
  | Except.error _ => none

/-- `Filter.reload_pins`: re-enumerates the filter's pins from the native
`EnumPins` stream, classifying by `QueryDirection` (0 = in, else out). -/
def Filter.reload_pins (f : Filter) : Filter :=
  { f with
    in_pins := (f.enum_pins.filter (fun pd => pd.2 = 0)).map Prod.fst,
    out_pins := (f.enum_pins.filter (fun pd => ¬ pd.2 = 0)).map Prod.fst }

/-- The `FilterGraph.filters` dict, insertion-ordered as Python dicts are. -/
abbrev FiltersDict := List (FilterType × Filter)

/-- Python `d[k]` read (None when absent, to feed `KeyError` at use sites). -/
def dictLookup (d : FiltersDict) (k : FilterType) : Option Filter :=
  match d with
  | [] => none
  | (k0, v0) :: rest => if k0 = k then some v0 else dictLookup rest k

/-- Python `d[k] = v`: replaces in place when the key exists, appends
otherwise (Python dicts preserve insertion order). -/
def dictInsert (d : FiltersDict) (k : FilterType) (v : Filter) : FiltersDict :=
  match d with
  | [] => [(k, v)]
  | (k0, v0) :: rest =>
    if k0 = k then (k, v) :: rest else (k0, v0) :: dictInsert rest k v

/-- The Python-visible state of a `FilterGraph` object, plus the list of
`graph_builder.Connect(out_pin, in_pin)` requests issued so far, in order. -/
structure FilterGraph where
  filters : FiltersDict
  connections : List (Pin × Pin)
  recording_format : Option RecordingFormat
  is_recording : Bool
deriving DecidableEq, Repr

/-- `FilterGraph.__init__` (the Python-visible fields). -/
def FilterGraph.init : FilterGraph :=
  { filters := [], connections := [], recording_format := none, is_recording := false }

/-- Record a `graph_builder.Connect(o, i)` request. -/
def FilterGraph.connect (g : FilterGraph) (o i : Pin) : FilterGraph :=
  { g with connections := g.connections ++ [(o, i)] }

/-- Look a filter type up in `self.filters`, raising `KeyError` when absent
(Python `self.filters[t]`). -/
def FilterGraph.lookupE (g : FilterGraph) (t : FilterType) : Except PyErr Filter :=
  match dictLookup g.filters t with
  | some f => Except.ok f
  | none => Except.error PyErr.keyError

/-- `FilterGraph.__add_filter`: `assert filter_type not in self.filters`,
build the filter (the native artifact is the `filter` argument), store it
in the dict and register it with the native graph. -/
def FilterGraph.add_filter (g : FilterGraph) (filter_type : FilterType) (filter : Filter) :
    Except PyErr FilterGraph :=
  if (dictLookup g.filters filter_type).isSome then Except.error PyErr.assertionError
  else Except.ok { g with filters := dictInsert g.filters filter_type filter }

/-- `FilterGraph.add_video_input_device` (delegates to `__add_filter`; the
filter the factory builds from the device index is the argument). -/
def FilterGraph.add_video_input_device (g : FilterGraph) (f : Filter) : Except PyErr FilterGraph :=
  g.add_filter FilterType.video_input f

/-- `FilterGraph.add_audio_input_device` (delegates to `__add_filter`). -/
def FilterGraph.add_audio_input_device (g : FilterGraph) (f : Filter) : Except PyErr FilterGraph :=
  g.add_filter FilterType.audio_input f

/-- `FilterGraph.add_video_compressor` (delegates to `__add_filter`). -/
def FilterGraph.add_video_compressor (g : FilterGraph) (f : Filter) : Except PyErr FilterGraph :=
  g.add_filter FilterType.video_compressor f

/-- `FilterGraph.add_audio_compressor` (delegates to `__add_filter`). -/
def FilterGraph.add_audio_compressor (g : FilterGraph) (f : Filter) : Except PyErr FilterGraph :=
  g.add_filter FilterType.audio_compressor f

/-- `FilterGraph.add_sample_grabber`: `__add_filter`, then
`set_callback(SampleGrabberCallback(callback), 1)` and
`set_media_type(Video, RGB24)` (the latter two are native calls; the
callback object becomes the filter's `callback` attribute). -/
def FilterGraph.add_sample_grabber (g : FilterGraph) (sgFilter : Filter) :
    Except PyErr FilterGraph := do
  let g1 ← g.add_filter FilterType.sample_grabber sgFilter
  match dictLookup g1.filters FilterType.sample_grabber with
  | none => Except.error PyErr.keyError
  | some sg =>
    Except.ok { g1 with
      filters := dictInsert g1.filters FilterType.sample_grabber
        { sg with callback := some SampleGrabberCallback.init } }

/-- `FilterGraph.grab_frame`: if a sample grabber is in the dict, call its
callback's `grab_frame` and return True, else return False. Reading
`.callback.grab_frame()` when `callback` is None raises AttributeError. -/
def FilterGraph.grab_frame (g : FilterGraph) : Except PyErr (FilterGraph × Bool) :=
  match dictLookup g.filters FilterType.sample_grabber with
  | some sg =>
    match sg.callback with
    | none => Except.error PyErr.attributeError
    | some cb =>
      Except.ok
        ({ g with
            filters := dictInsert g.filters FilterType.sample_grabber
              { sg with callback := some cb.grab_frame } },
          true)
  | none => Except.ok (g, false)

/-- `FilterGraph.prepare_preview_graph`: asserts video input and render are
present; with no sample grabber, connects video input out to render in;
with a sample grabber, connects video input -> grabber -> render and then
runs `SampleGrabber.initialize_after_connection`, i.e. sets the callback's
`image_resolution` from the connected media type; finally sets
`is_recording = False`. -/
def FilterGraph.prepare_preview_graph (g : FilterGraph) : Except PyErr FilterGraph := do
  match dictLookup g.filters FilterType.video_input, dictLookup g.filters FilterType.render with
  | some vi, some render =>
    match dictLookup g.filters FilterType.sample_grabber with
    | none => do
      let o ← vi.get_out
      let i ← render.get_in
      let g1 := g.connect o i
      Except.ok { g1 with is_recording := false }
    | some sg => do
      let o ← vi.get_out
      let i ← sg.get_in
      let g1 := g.connect o i
      let o2 ← sg.get_out
      let i2 ← render.get_in
      let g2 := g1.connect o2 i2
      match sg.callback with
      | none => Except.error PyErr.attributeError
      | some cb =>
        let sg2 := { sg with callback := some { cb with image_resolution := sg.connected_resolution } }
        Except.ok { g2 with
          filters := dictInsert g2.filters FilterType.sample_grabber sg2,
          is_recording := false }
  | _, _ => Except.error PyErr.assertionError

/-- `FilterGraph.__get_capture_and_preview_pins`: looks for dedicated
preview and capture output pins on the video input via `find_pin`; when
both exist they are returned directly; when either is missing a smart tee
is added via `__add_filter` (the native filter the factory would build is
the `tee` argument), the available pin (capture preferred) is connected to
the tee's input, and the tee's output pin pair `[capture, preview]` is
unpacked (ValueError unless exactly two pins; COMError when neither source
pin exists, since `Connect` would receive a null pointer). Returns
`(preview_pin, capture_pin)`. -/
def FilterGraph.get_capture_and_preview_pins (g : FilterGraph) (tee : Filter) :
    Except PyErr (FilterGraph × Pin × Pin) := do
  match dictLookup g.filters FilterType.video_input with
  | none => Except.error PyErr.keyError
  | some vi =>
    match Filter.find_pin vi.find_preview, Filter.find_pin vi.find_capture with
    | some preview_pin, some capture_pin => Except.ok (g, preview_pin, capture_pin)
    | preview_pin, capture_pin => do
      let g1 ← g.add_filter FilterType.smart_tee tee
      match dictLookup g1.filters FilterType.smart_tee with
      | none => Except.error PyErr.keyError
      | some smart_tee => do
        let src ← match capture_pin, preview_pin with
          | some c, _ => Except.ok c
          | none, some p => Except.ok p
          | none, none => Except.error (PyErr.comError ⟨-2147467261⟩)
        let ti ← smart_tee.get_in
        let g2 := g1.connect src ti
        match smart_tee.out_pins with
        | [c, p] => Except.ok (g2, p, c)
        | _ => Except.error PyErr.valueError

/-- `FilterGraph.prepare_recording_graph`: asserts video input, render and
muxer are present, computes the preview/capture pins, then builds the
recording topology by `recording_format` (ASF: capture -> muxer in-pin 1,
audio input out -> muxer in-pin 0, preview -> render; otherwise/AVI:
capture -> video compressor -> muxer, preview -> render, and when an audio
input is present, audio input -> audio compressor, muxer pins reloaded,
audio compressor out -> muxer in-pin 1); sets `is_recording = True`. -/
def FilterGraph.prepare_recording_graph (g : FilterGraph) (tee : Filter) :
    Except PyErr FilterGraph := do
  if (dictLookup g.filters FilterType.video_input).isSome
      ∧ (dictLookup g.filters FilterType.render).isSome
      ∧ (dictLookup g.filters FilterType.muxer).isSome then
    let (g1, preview_pin, capture_pin) ← g.get_capture_and_preview_pins tee
    if g1.recording_format = some RecordingFormat.ASF then do
      let mux ← g1.lookupE FilterType.muxer
      let i1 ← mux.get_in 1
      let g2 := g1.connect capture_pin i1
      let ai ← g2.lookupE FilterType.audio_input
      let ao ← ai.get_out
      let i0 ← mux.get_in 0
      let g3 := g2.connect ao i0
      let render ← g3.lookupE FilterType.render
      let ri ← render.get_in
      let g4 := g3.connect preview_pin ri
      Except.ok { g4 with is_recording := true }
    else do
      let vc ← g1.lookupE FilterType.video_compressor
      let vci ← vc.get_in
      let g2 := g1.connect capture_pin vci
      let vco ← vc.get_out
      let mux ← g2.lookupE FilterType.muxer
      let mi ← mux.get_in
      let g3 := g2.connect vco mi
      let render ← g3.lookupE FilterType.render
      let ri ← render.get_in
      let g4 := g3.connect preview_pin ri
      match dictLookup g4.filters FilterType.audio_input with
      | none => Except.ok { g4 with is_recording := true }
      | some ai => do
        let ao ← ai.get_out
        let ac ← g4.lookupE FilterType.audio_compressor
        let aci ← ac.get_in
        let g5 := g4.connect ao aci
        let mux2 := mux.reload_pins
        let g6 := { g5 with filters := dictInsert g5.filters FilterType.muxer mux2 }
        let aco ← ac.get_out
        let mi1 ← mux2.get_in 1
        let g7 := g6.connect aco mi1
        Except.ok { g7 with is_recording := true }
  else Except.error PyErr.assertionError

/-- Index of the last occurrence of `c` in `s`, or `-1` (Python `str.rfind`
for a single-character needle). -/
def rfind (s : List Char) (c : Char) : Int :=
  match s with
  | [] => -1
  | a :: rest =>
    let r := rfind rest c
    if r ≥ 0 then r + 1 else if a = c then 0 else -1

/-- The skip-leading-dots loop of `ntpath.splitext`: true when every
character of `p` with index in `[i, j)` is the extension separator. -/
def allDots (p : List Char) (i j : Nat) : Bool :=
  ((p.drop i).take (j - i)).all (fun ch => ch = '.')

/-- `os.path.splitext` as it runs on Windows (`ntpath.splitext`, with
`sep = backslash`, `altsep = slash`, `extsep = dot`): split at the last dot
that lies after the last separator, unless every character between the
separator and that dot is itself a dot (leading dots of the base name do
not start an extension). -/
def splitext (p : String) : String × String :=
  let s := p.data
  let sepIndex := max (rfind s '\\') (rfind s '/')
  let dotIndex := rfind s '.'
  if dotIndex > sepIndex ∧ ¬ allDots s (sepIndex + 1).toNat dotIndex.toNat then
    (String.mk (s.take dotIndex.toNat), String.mk (s.drop dotIndex.toNat))
  else (p, "")

/-- `FilterGraph.add_file_writer_and_muxer`: choose the media subtype and
`recording_format` from the uppercased extension of `filename` (".WMV" ↦
ASF, anything else ↦ AVI), call the native `SetOutputFileName` (whose muxer
result is the `mux` argument), and store the muxer filter under
`FilterType.muxer` by plain dict assignment. The chosen media subtype —
an argument of the native call — is returned alongside the new state. -/
def FilterGraph.add_file_writer_and_muxer (g : FilterGraph) (filename : String) (mux : Filter) :
    FilterGraph × MediaSubtype :=
  let extension := (splitext filename).2.toUpper
  let mediasubtype := if extension = ".WMV" then MediaSubtype.ASF else MediaSubtype.AVI
  let fmt := if extension = ".WMV" then RecordingFormat.ASF else RecordingFormat.AVI
  ({ g with
      recording_format := some fmt,
      filters := dictInsert g.filters FilterType.muxer mux },
    mediasubtype)

/-- A device moniker, reduced to the property-bag data the binding reads. -/
structure Moniker where
  friendlyName : String
deriving DecidableEq, Repr

/-- `get_moniker_name`: bind the moniker to its property bag and read its
"FriendlyName" property. -/
def get_moniker_name (moniker : Moniker) : String :=
  moniker.friendlyName

/-- `class SystemDeviceEnum`: `CreateClassEnumerator` per category CLSID.
`none` models the null enumerator the native call returns for a category
with no devices (calling `Next` on it raises `ValueError` in comtypes);
`some ms` models a live enumerator yielding the monikers `ms` in order. -/
structure SystemDeviceEnum where
  classEnumerator : String → Option (List Moniker)

/-- `SystemDeviceEnum.get_available_filters`: walk the class enumerator,
collecting each moniker's friendly name; the first `Next` is wrapped in
`try/except ValueError: return result`, so a null enumerator yields `[]`. -/
def SystemDeviceEnum.get_available_filters (s : SystemDeviceEnum) (category_clsid : String) :
    List String :=
  match s.classEnumerator category_clsid with
  | none => []
  | some monikers => monikers.map get_moniker_name

/-- Opaque identifier for an `IVideoWindow` interface pointer. -/
abbrev VideoWindow := Nat

/-- The `try/except COMError` of `Render.__init__`: the outcome of
`instance.QueryInterface(IVideoWindow)` becomes `self.video_window`, with a
COMError converted to `None` ("probably IVideoWindow not supported because
using NullRender"). -/
def render_init_video_window (native : Except ComError VideoWindow) : Option VideoWindow :=
  match native with
  | Except.ok w => some w
  | Except.error _ => none

/-- `show_properties`: the whole property-frame block is wrapped in
`try/except COMError: pass`, so whatever the native calls do the function
returns normally. The argument is the native block's outcome. -/
def show_properties (native : Except ComError Unit) : Except ComError Unit :=
  match native with
  | Except.ok _ => Except.ok ()
  | Except.error _ => Except.ok ()

/-- The `try/except COMError` of `FrameRateManager.__init__`: the outcome
of `pin.QueryInterface(IAMVideoControl)` becomes `self.video_control`,
with a COMError converted to `None`. -/
def frame_rate_manager_init_video_control (native : Except ComError Nat) : Option Nat :=
  match native with
  | Except.ok v => some v
  | Except.error _ => none

/-- The bare `try/except` of `FilterGraphDebugHelper.get_pin_info` around
`pin.ConnectedTo()`: the COMError an unconnected pin raises
(VFW_E_NOT_CONNECTED) is converted to `connected_pin = None`. -/
def get_pin_info_connected_pin (native : Except ComError Pin) : Option Pin :=
  match native with
  | Except.ok p => some p
  | Except.error _ => none

/-- An RGB24 frame as nested lists: rows, then pixels, then 3 channels. -/
abbrev Image := List (List (List Nat))

/-- `np.ctypeslib.as_array(pBuffer, shape=(h, w, 3))`: view the raw buffer
memory (a byte at every offset, modelled as `mem : Nat → Nat`) as an
`h × w × 3` array in C order. -/
def as_array (mem : Nat → Nat) (h w : Nat) : Image :=
  (List.range h).map (fun i =>
    (List.range w).map (fun j =>
      (List.range 3).map (fun k => mem ((i * w + j) * 3 + k))))

/-- `SampleGrabberCallback.SampleCB`: does nothing and returns 0. -/
def SampleGrabberCallback.SampleCB (s : SampleGrabberCallback) : SampleGrabberCallback × Int :=
  (s, 0)

/-- `SampleGrabberCallback.BufferCB`: when `keep_photo` is set, clear it,
view the buffer as `(image_resolution[1], image_resolution[0], 3)`, flip a
copy along axis 0 and hand it to the user callback; always return 0. The
frame passed to the callback (if any) is returned as the middle component. -/
def SampleGrabberCallback.BufferCB (s : SampleGrabberCallback) (pBuffer : Nat → Nat) :
    SampleGrabberCallback × Option Image × Int :=
  if s.keep_photo then
    ({ s with keep_photo := false },
      some (as_array pBuffer s.image_resolution.2 s.image_resolution.1).reverse,
      0)
  else (s, none, 0)

/-! ### Dictionary lemmas -/

theorem dictLookup_dictInsert_self (d : FiltersDict) (k : FilterType) (v : Filter) :
    dictLookup (dictInsert d k v) k = some v := by
  induction d with
  | nil => simp [dictInsert, dictLookup]
  | cons hd tl ih =>
    obtain ⟨k0, v0⟩ := hd
    by_cases h : k0 = k <;> simp [dictInsert, dictLookup, h, ih]

theorem dictLookup_eq_none_iff (d : FiltersDict) (k : FilterType) :
    dictLookup d k = none ↔ k ∉ d.map Prod.fst := by
  induction d with
  | nil => simp [dictLookup]
  | cons hd tl ih =>
    obtain ⟨k0, v0⟩ := hd
    by_cases h : k0 = k
    · simp [dictLookup, h]
    · simp [dictLookup, h, ih]
      tauto

theorem dictInsert_of_absent (d : FiltersDict) (k : FilterType) (v : Filter)
    (h : dictLookup d k = none) : dictInsert d k v = d ++ [(k, v)] := by
  induction d with
  | nil => simp [dictInsert]
  | cons hd tl ih =>
    obtain ⟨k0, v0⟩ := hd
    by_cases hk : k0 = k
    · simp [dictLookup, hk] at h
    · simp only [dictLookup, hk, if_false] at h
      simp [dictInsert, hk, ih h]

/-! ### Claim theorems -/

/-- C9: `FilterGraph.filters` holds at most one filter per `FilterType`:
`__add_filter` asserts the type is not already present, so a second add for
a type already in the graph raises `AssertionError` and does not replace
the existing filter, and a successful add keeps the key set duplicate-free. -/
theorem add_filter_unique (g : FilterGraph) (t : FilterType) (f f0 : Filter)
    (hpresent : dictLookup g.filters t = some f0) :
    g.add_filter t f = Except.error PyErr.assertionError
    ∧ ∀ (t2 : FilterType) (f2 : Filter) (g2 : FilterGraph),
        (g.filters.map Prod.fst).Nodup → g.add_filter t2 f2 = Except.ok g2 →
        (g2.filters.map Prod.fst).Nodup
        ∧ dictLookup g2.filters t2 = some f2 := by
  constructor
  · simp [FilterGraph.add_filter, hpresent]
  · intro t2 f2 g2 hnodup hok
    unfold FilterGraph.add_filter at hok
    cases hnone : dictLookup g.filters t2 with
    | some v => rw [hnone] at hok; simp at hok
    | none =>
      rw [hnone] at hok
      simp only [Option.isSome_none, Bool.false_eq_true, if_false, Except.ok.injEq] at hok
      subst hok
      constructor
      · simp only [dictInsert_of_absent _ _ _ hnone, List.map_append, List.map_cons,
          List.map_nil, List.nodup_append]
        refine ⟨hnodup, List.nodup_singleton _, ?_⟩
        intro a ha hb
        simp only [List.mem_singleton] at hb
        subst hb
        exact (dictLookup_eq_none_iff _ _).mp hnone ha
      · exact dictLookup_dictInsert_self _ _ _

/-- A concrete video input filter for the C9 witness. -/
def camFixture : Filter :=
  { Name := "cam", out_pins := [1], in_pins := [] }

/-- A second concrete video input filter for the C9 witness. -/
def camFixture2 : Filter :=
  { Name := "cam2", out_pins := [2], in_pins := [] }

/-- A graph already holding `camFixture` as its video input. -/
def graphWithCam : FilterGraph :=
  { filters := [(FilterType.video_input, camFixture)],
    connections := [], recording_format := none, is_recording := false }

/-- C9 witness: in a graph already holding a video input, adding a second
video input fails the assertion (the existing filter is not replaced). -/
theorem add_filter_unique_witness :
    graphWithCam.add_filter FilterType.video_input camFixture2
      = Except.error PyErr.assertionError :=
  (add_filter_unique graphWithCam FilterType.video_input camFixture2 camFixture rfl).1

/-- C5: `FilterGraph.grab_frame` returns True and sets the sample-grabber
callback's `keep_photo` flag (changing nothing else) when a sample grabber
is in the graph with its callback attached, and returns False with the
state unchanged when no sample grabber is present. -/
theorem grab_frame_spec (g : FilterGraph) :
    (dictLookup g.filters FilterType.sample_grabber = none →
        g.grab_frame = Except.ok (g, false))
    ∧ ∀ sg cb, dictLookup g.filters FilterType.sample_grabber = some sg →
        sg.callback = some cb →
        g.grab_frame = Except.ok
          ({ g with
              filters := dictInsert g.filters FilterType.sample_grabber
                { sg with callback := some { cb with keep_photo := true } } },
            true) := by
  constructor
  · intro h
    simp [FilterGraph.grab_frame, h]
  · intro sg cb hsg hcb
    simp [FilterGraph.grab_frame, hsg, hcb, SampleGrabberCallback.grab_frame]

/-- A sample grabber filter whose callback is attached, for the C5 witness. -/
def grabberFixture : Filter :=
  { Name := "Sample Grabber", out_pins := [3], in_pins := [2],
    callback := some { cnt := 0, keep_photo := false, image_resolution := (640, 480) } }

/-- A graph holding `grabberFixture` as its sample grabber. -/
def graphWithGrabber : FilterGraph :=
  { filters := [(FilterType.sample_grabber, grabberFixture)],
    connections := [], recording_format := none, is_recording := false }

/-- The state `graphWithGrabber.grab_frame` must leave behind: identical
except that the callback's `keep_photo` flag is now raised. -/
def graphWithGrabberFlagged : FilterGraph :=
  { filters := [(FilterType.sample_grabber,
      { Name := "Sample Grabber", out_pins := [3], in_pins := [2],
        callback := some { cnt := 0, keep_photo := true, image_resolution := (640, 480) } })],
    connections := [], recording_format := none, is_recording := false }

/-- C5 witness: the graph with a connected sample grabber answers True and
raises only the `keep_photo` flag; the empty graph answers False unchanged. -/
theorem grab_frame_spec_witness :
    graphWithGrabber.grab_frame = Except.ok (graphWithGrabberFlagged, true)
    ∧ FilterGraph.grab_frame FilterGraph.init = Except.ok (FilterGraph.init, false) := by
  constructor
  · have h := (grab_frame_spec graphWithGrabber).2
      grabberFixture { cnt := 0, keep_photo := false, image_resolution := (640, 480) } rfl rfl
    simpa [graphWithGrabber, graphWithGrabberFlagged, grabberFixture, dictInsert] using h
  · exact (grab_frame_spec FilterGraph.init).1 rfl

/-- C6: `add_file_writer_and_muxer` selects the recording format from the
filename's uppercased extension: exactly when it is ".WMV" the media
subtype passed to `SetOutputFileName` is ASF and `recording_format` becomes
ASF, otherwise (including extensionless names) AVI; the muxer filter is
stored under `FilterType.muxer`. -/
theorem add_file_writer_and_muxer_spec (g : FilterGraph) (filename : String) (mux : Filter) :
    (g.add_file_writer_and_muxer filename mux).2
      = (if (splitext filename).2.toUpper = ".WMV" then MediaSubtype.ASF else MediaSubtype.AVI)
    ∧ (g.add_file_writer_and_muxer filename mux).1.recording_format
      = some (if (splitext filename).2.toUpper = ".WMV"
          then RecordingFormat.ASF else RecordingFormat.AVI)
    ∧ dictLookup (g.add_file_writer_and_muxer filename mux).1.filters FilterType.muxer
      = some mux := by
  refine ⟨?_, ?_, ?_⟩ <;>
    simp [FilterGraph.add_file_writer_and_muxer, dictLookup_dictInsert_self]

/-- C7: `SystemDeviceEnum.get_available_filters` returns the FriendlyName
of each device the class enumerator yields, in enumerator order, and
returns the empty list rather than raising both for a null enumerator
(whose first `Next` raises ValueError, caught) and for an empty one. -/
theorem get_available_filters_spec (s : SystemDeviceEnum) (cat : String) :
    (∀ ms, s.classEnumerator cat = some ms →
        s.get_available_filters cat = ms.map get_moniker_name)
    ∧ (s.classEnumerator cat = none → s.get_available_filters cat = [])
    ∧ (s.classEnumerator cat = some [] → s.get_available_filters cat = []) := by
  refine ⟨?_, ?_, ?_⟩ <;> intro h <;>
    first
    | (intro hh; simp [SystemDeviceEnum.get_available_filters, hh])
    | simp [SystemDeviceEnum.get_available_filters, h]

/-- C7 witness: a two-device category lists both friendly names in order; a
category whose enumerator is null yields the empty list. -/
theorem get_available_filters_spec_witness :
    SystemDeviceEnum.get_available_filters
        ⟨fun c => if c = "videoInput" then some [⟨"Cam A"⟩, ⟨"Cam B"⟩] else none⟩ "videoInput"
      = ["Cam A", "Cam B"]
    ∧ SystemDeviceEnum.get_available_filters
        ⟨fun c => if c = "videoInput" then some [⟨"Cam A"⟩, ⟨"Cam B"⟩] else none⟩ "audioInput"
      = [] := by
  constructor
  · have h := (get_available_filters_spec
      ⟨fun c => if c = "videoInput" then some [⟨"Cam A"⟩, ⟨"Cam B"⟩] else none⟩ "videoInput").1
      [⟨"Cam A"⟩, ⟨"Cam B"⟩] (by simp)
    simpa [get_moniker_name] using h
  · exact (get_available_filters_spec
      ⟨fun c => if c = "videoInput" then some [⟨"Cam A"⟩, ⟨"Cam B"⟩] else none⟩ "audioInput").2.1
      (by simp)

/-- C4 counterexample: the claim that no operation converts a native COM
error into a normal return value is false — `Filter.find_pin` catches the
COMError raised by `FindPin` (here VFW_E_NOT_FOUND) and returns None,
`show_properties` suppresses a COMError entirely, and `Render.__init__`
turns a failed `QueryInterface(IVideoWindow)` into `video_window = None`. -/
theorem com_error_swallowed_counterexample :
    Filter.find_pin (Except.error ⟨-2147220969⟩) = none
    ∧ show_properties (Except.error ⟨-2147467259⟩) = Except.ok ()
    ∧ render_init_video_window (Except.error ⟨-2147467262⟩) = none := by
  exact ⟨rfl, rfl, rfl⟩

/-- C4 amended: native interface errors reach the caller unchanged except
at the module's handlers around native calls, each of which converts the
error into a normal value: `Filter.find_pin` returns None (treating the
COMError as "pin not found"), `show_properties` suppresses the COMError,
`Render.__init__` stores None as `video_window`, `FrameRateManager.__init__`
stores None as `video_control`, `FilterGraphDebugHelper.get_pin_info`
catches (via a bare except) the COMError from `pin.ConnectedTo()` and
reports None as the connected pin, and
`SystemDeviceEnum.get_available_filters` catches the ValueError raised by
a null class enumerator and returns the empty list; on native success each
of these passes the native result through unchanged. -/
theorem com_error_conversion_sites (e : ComError) :
    Filter.find_pin (Except.error e) = none
    ∧ show_properties (Except.error e) = Except.ok ()
    ∧ render_init_video_window (Except.error e) = none
    ∧ frame_rate_manager_init_video_control (Except.error e) = none
    ∧ get_pin_info_connected_pin (Except.error e) = none
    ∧ (∀ cat, SystemDeviceEnum.get_available_filters ⟨fun _ => none⟩ cat = [])
    ∧ (∀ p, Filter.find_pin (Except.ok p) = some p)
    ∧ (∀ w, render_init_video_window (Except.ok w) = some w)
    ∧ (∀ v, frame_rate_manager_init_video_control (Except.ok v) = some v)
    ∧ (∀ p, get_pin_info_connected_pin (Except.ok p) = some p) := by
  exact ⟨rfl, rfl, rfl, rfl, rfl, fun _ => rfl, fun _ => rfl, fun _ => rfl, fun _ => rfl,
    fun _ => rfl⟩

/-! ### Array-view lemmas for the buffer callback -/

theorem getD_range_map {α : Type} (f : Nat → α) (n i : Nat) (h : i < n) (d : α) :
    ((List.range n).map f).getD i d = f i := by
  rw [List.getD_eq_getElem?_getD, List.getElem?_map, List.getElem?_range h]
  rfl

theorem getD_reverse {α : Type} (l : List α) (i : Nat) (h : i < l.length) (d : α) :
    l.reverse.getD i d = l.getD (l.length - 1 - i) d := by
  rw [List.getD_eq_getElem?_getD, List.getD_eq_getElem?_getD, List.getElem?_reverse h]

theorem as_array_length (mem : Nat → Nat) (h w : Nat) : (as_array mem h w).length = h := by
  simp [as_array]

theorem as_array_getD (mem : Nat → Nat) (h w i j k : Nat)
    (hi : i < h) (hj : j < w) (hk : k < 3) :
    (((as_array mem h w).getD i []).getD j []).getD k 0 = mem ((i * w + j) * 3 + k) := by
  unfold as_array
  rw [getD_range_map _ _ _ hi, getD_range_map _ _ _ hj, getD_range_map _ _ _ hk]

theorem as_array_row_shape (mem : Nat → Nat) (h w : Nat) :
    ∀ row ∈ as_array mem h w, row.length = w ∧ ∀ px ∈ row, px.length = 3 := by
  intro row hrow
  simp only [as_array, List.mem_map, List.mem_range] at hrow
  obtain ⟨i, _, rfl⟩ := hrow
  refine ⟨by simp, ?_⟩
  intro px hpx
  simp only [List.mem_map, List.mem_range] at hpx
  obtain ⟨j, _, rfl⟩ := hpx
  simp

/-- C10: `SampleGrabberCallback.BufferCB` invokes the user callback only
when `keep_photo` is set; when it fires it first clears `keep_photo`,
passes a vertically flipped copy of the buffer with shape
`(height, width, 3)` read from `image_resolution = (width, height)`, and
returns 0; a buffer arriving while `keep_photo` is clear is discarded with
the state unchanged and no callback invocation. -/
theorem BufferCB_one_shot (s : SampleGrabberCallback) (mem : Nat → Nat) :
    (s.keep_photo = false → s.BufferCB mem = (s, none, 0))
    ∧ (s.keep_photo = true →
        (s.BufferCB mem).1 = { s with keep_photo := false }
        ∧ (s.BufferCB mem).2.2 = 0
        ∧ ∃ img, (s.BufferCB mem).2.1 = some img
            ∧ img.length = s.image_resolution.2
            ∧ (∀ row ∈ img, row.length = s.image_resolution.1
                ∧ ∀ px ∈ row, px.length = 3)
            ∧ ∀ i j k, i < s.image_resolution.2 → j < s.image_resolution.1 → k < 3 →
                ((img.getD i []).getD j []).getD k 0
                  = mem (((s.image_resolution.2 - 1 - i) * s.image_resolution.1 + j) * 3 + k)) := by
  constructor
  · intro hkp
    simp [SampleGrabberCallback.BufferCB, hkp]
  · intro hkp
    refine ⟨by simp [SampleGrabberCallback.BufferCB, hkp], by simp [SampleGrabberCallback.BufferCB, hkp], ?_⟩
    refine ⟨(as_array mem s.image_resolution.2 s.image_resolution.1).reverse,
      by simp [SampleGrabberCallback.BufferCB, hkp], ?_, ?_, ?_⟩
    · simp [as_array_length]
    · intro row hrow
      exact as_array_row_shape mem _ _ row (List.mem_reverse.mp hrow)
    · intro i j k hi hj hk
      rw [getD_reverse _ i (by rw [as_array_length]; exact hi) []]
      rw [as_array_length]
      exact as_array_getD mem _ _ _ _ _ (by omega) hj hk

/-- C10 witness: with `keep_photo` set, resolution `(width, height) =
(1, 2)` and the buffer byte at offset `n` equal to `n`, `BufferCB` clears
the flag, returns 0 and delivers a 2-row flipped frame whose top-left
channel is byte 3 of the buffer (the start of the bottom source row). -/
theorem BufferCB_one_shot_witness :
    (SampleGrabberCallback.BufferCB
        { cnt := 0, keep_photo := true, image_resolution := (1, 2) } (fun n => n)).1
      = { cnt := 0, keep_photo := false, image_resolution := (1, 2) }
    ∧ (SampleGrabberCallback.BufferCB
        { cnt := 0, keep_photo := true, image_resolution := (1, 2) } (fun n => n)).2.2 = 0
    ∧ ∃ img,
        (SampleGrabberCallback.BufferCB
            { cnt := 0, keep_photo := true, image_resolution := (1, 2) } (fun n => n)).2.1
          = some img
        ∧ img.length = 2
        ∧ ((img.getD 0 []).getD 0 []).getD 0 0 = 3 := by
  have h := (BufferCB_one_shot
    { cnt := 0, keep_photo := true, image_resolution := (1, 2) } (fun n => n)).2 rfl
  obtain ⟨h1, h2, img, h3, h4, _, h6⟩ := h
  refine ⟨h1, h2, img, h3, h4, ?_⟩
  have h7 := h6 0 0 0 (by decide) (by decide) (by decide)
  simpa using h7

/-- C1: with a video input and a render present, `prepare_preview_graph`
connects video input's first output pin straight to the render's first
input pin when no sample grabber is in the graph; otherwise it connects
video input -> sample grabber -> render and sets the grabber callback's
`image_resolution` from the connected media type; in both cases
`is_recording` is False afterwards. -/
theorem prepare_preview_graph_topology (g : FilterGraph) (vi render : Filter) (vo ri : Pin)
    (hvi : dictLookup g.filters FilterType.video_input = some vi)
    (hr : dictLookup g.filters FilterType.render = some render)
    (hvo : vi.get_out = Except.ok vo)
    (hri : render.get_in = Except.ok ri) :
    (dictLookup g.filters FilterType.sample_grabber = none →
      g.prepare_preview_graph = Except.ok
        { g with connections := g.connections ++ [(vo, ri)], is_recording := false })
    ∧ (∀ sg cb si so,
        dictLookup g.filters FilterType.sample_grabber = some sg →
        sg.callback = some cb →
        sg.get_in = Except.ok si →
        sg.get_out = Except.ok so →
        g.prepare_preview_graph = Except.ok
          { g with
              filters := dictInsert g.filters FilterType.sample_grabber { sg with callback := some { cb with image_resolution := sg.connected_resolution } },
              connections := g.connections ++ [(vo, si), (so, ri)],
              is_recording := false }) := by
  constructor
  · intro hsg
    simp [FilterGraph.prepare_preview_graph, hvi, hr, hsg, hvo, hri, FilterGraph.connect,
      Bind.bind, Except.bind]
  · intro sg cb si so hsg hcb hsi hso
    simp [FilterGraph.prepare_preview_graph, hvi, hr, hsg, hcb, hvo, hri, hsi, hso,
      FilterGraph.connect, Bind.bind, Except.bind]

/-- The video input used by the C1 witness: first output pin 10. -/
def viPrev : Filter := { Name := "cam", out_pins := [10], in_pins := [] }

/-- The render used by the C1 witness: first input pin 20. -/
def renderPrev : Filter := { Name := "Render", out_pins := [], in_pins := [20] }

/-- The sample grabber used by the C1 witness: pins 11 (in) and 12 (out), a
fresh callback, and a 640x480 connected media type. -/
def sgPrev : Filter :=
  { Name := "Sample Grabber", out_pins := [12], in_pins := [11],
    callback := some SampleGrabberCallback.init, connected_resolution := (640, 480) }

/-- The C1 witness input graph: video input, render and sample grabber. -/
def gPrev : FilterGraph :=
  { filters := [(FilterType.video_input, viPrev), (FilterType.render, renderPrev),
      (FilterType.sample_grabber, sgPrev)],
    connections := [], recording_format := none, is_recording := false }

/-- The preview topology the C1 witness must produce: camera out 10 into
grabber in 11, grabber out 12 into render in 20, callback resolution
initialized to 640x480, not recording. -/
def gPrevExpected : FilterGraph :=
  { filters := [(FilterType.video_input, viPrev), (FilterType.render, renderPrev),
      (FilterType.sample_grabber,
        { Name := "Sample Grabber", out_pins := [12], in_pins := [11],
          callback := some { cnt := 0, keep_photo := false, image_resolution := (640, 480) },
          connected_resolution := (640, 480) })],
    connections := [(10, 11), (12, 20)], recording_format := none, is_recording := false }

/-- C1 witness: the concrete three-filter graph builds exactly the
grabber-mediated preview topology. -/
theorem prepare_preview_graph_topology_witness :
    gPrev.prepare_preview_graph = Except.ok gPrevExpected := by
  have h := (prepare_preview_graph_topology gPrev viPrev renderPrev 10 20 rfl rfl rfl rfl).2
    sgPrev SampleGrabberCallback.init 11 12 rfl rfl rfl rfl
  rw [h]
  rfl

/-- C2: `__get_capture_and_preview_pins` returns the video input's
dedicated preview and capture pins directly when `find_pin` locates both;
when either is missing it adds a smart tee, connects the available pin
(capture preferred) to the tee's input, and uses the tee's first output
pin as capture and second as preview. -/
theorem get_capture_preview_pins_spec (g : FilterGraph) (vi tee : Filter)
    (hvi : dictLookup g.filters FilterType.video_input = some vi) :
    (∀ pp cp, Filter.find_pin vi.find_preview = some pp →
        Filter.find_pin vi.find_capture = some cp →
        g.get_capture_and_preview_pins tee = Except.ok (g, pp, cp))
    ∧ (∀ cp ti c p,
        Filter.find_pin vi.find_preview = none →
        Filter.find_pin vi.find_capture = some cp →
        dictLookup g.filters FilterType.smart_tee = none →
        tee.get_in = Except.ok ti →
        tee.out_pins = [c, p] →
        g.get_capture_and_preview_pins tee = Except.ok
          ({ g with filters := dictInsert g.filters FilterType.smart_tee tee,
                    connections := g.connections ++ [(cp, ti)] }, p, c))
    ∧ (∀ pp ti c p,
        Filter.find_pin vi.find_preview = some pp →
        Filter.find_pin vi.find_capture = none →
        dictLookup g.filters FilterType.smart_tee = none →
        tee.get_in = Except.ok ti →
        tee.out_pins = [c, p] →
        g.get_capture_and_preview_pins tee = Except.ok
          ({ g with filters := dictInsert g.filters FilterType.smart_tee tee,
                    connections := g.connections ++ [(pp, ti)] }, p, c)) := by
  refine ⟨?_, ?_, ?_⟩
  · intro pp cp hpp hcp
    simp [FilterGraph.get_capture_and_preview_pins, hvi, hpp, hcp]
  · intro cp ti c p hpp hcp htee hti hout
    simp [FilterGraph.get_capture_and_preview_pins, hvi, hpp, hcp, htee, hti, hout,
      FilterGraph.add_filter, FilterGraph.connect, dictLookup_dictInsert_self,
      Bind.bind, Except.bind]
  · intro pp ti c p hpp hcp htee hti hout
    simp [FilterGraph.get_capture_and_preview_pins, hvi, hpp, hcp, htee, hti, hout,
      FilterGraph.add_filter, FilterGraph.connect, dictLookup_dictInsert_self,
      Bind.bind, Except.bind]

/-- The video input of the C2 witness: its capture pin 12 is found but its
preview pin query fails with VFW_E_NOT_FOUND. -/
def viTee : Filter :=
  { Name := "cam", out_pins := [12], in_pins := [],
    find_preview := Except.error ⟨-2147220969⟩, find_capture := Except.ok 12 }

/-- The smart tee of the C2 witness: input pin 30, output pins 31 and 32. -/
def teeFixture : Filter :=
  { Name := "Smart Tee", out_pins := [31, 32], in_pins := [30] }

/-- The C2 witness input graph: just the capture-only video input. -/
def gTee : FilterGraph :=
  { filters := [(FilterType.video_input, viTee)],
    connections := [], recording_format := none, is_recording := false }

/-- C2 witness: with the preview pin missing, the smart tee is inserted,
capture pin 12 feeds tee input 30, and the call answers preview = tee
output 32 (second) and capture = tee output 31 (first). -/
theorem get_capture_preview_pins_spec_witness :
    gTee.get_capture_and_preview_pins teeFixture = Except.ok
      ({ filters := [(FilterType.video_input, viTee), (FilterType.smart_tee, teeFixture)],
         connections := [(12, 30)], recording_format := none, is_recording := false },
        32, 31) := by
  have h := (get_capture_preview_pins_spec gTee viTee teeFixture rfl).2.1
    12 30 31 32 rfl rfl rfl rfl rfl
  rw [h]
  rfl

/-- C3: `prepare_recording_graph` (requiring video input, render and muxer)
builds the recording topology by format. With the dedicated preview and
capture pins both found: for ASF it connects capture -> muxer input 1,
audio input -> muxer input 0 and preview -> render; for AVI it connects
capture -> video compressor -> muxer and preview -> render, and when an
audio input is present it additionally connects audio input -> audio
compressor, reloads the muxer's pins and connects the audio compressor to
the reloaded muxer's second input pin. In every case `is_recording` is
True afterwards. -/
theorem prepare_recording_graph_topology (g : FilterGraph) (vi render mux tee : Filter)
    (pp cp ri : Pin)
    (hvi : dictLookup g.filters FilterType.video_input = some vi)
    (hr : dictLookup g.filters FilterType.render = some render)
    (hmux : dictLookup g.filters FilterType.muxer = some mux)
    (hpp : Filter.find_pin vi.find_preview = some pp)
    (hcp : Filter.find_pin vi.find_capture = some cp)
    (hri : render.get_in = Except.ok ri) :
    (∀ ai m0 m1 ao,
        g.recording_format = some RecordingFormat.ASF →
        dictLookup g.filters FilterType.audio_input = some ai →
        mux.get_in 1 = Except.ok m1 →
        mux.get_in 0 = Except.ok m0 →
        ai.get_out = Except.ok ao →
        g.prepare_recording_graph tee = Except.ok
          { g with
              connections := g.connections ++ [(cp, m1), (ao, m0), (pp, ri)],
              is_recording := true })
    ∧ (∀ vc vci vco m0,
        g.recording_format = some RecordingFormat.AVI →
        dictLookup g.filters FilterType.video_compressor = some vc →
        vc.get_in = Except.ok vci →
        vc.get_out = Except.ok vco →
        mux.get_in = Except.ok m0 →
        dictLookup g.filters FilterType.audio_input = none →
        g.prepare_recording_graph tee = Except.ok
          { g with
              connections := g.connections ++ [(cp, vci), (vco, m0), (pp, ri)],
              is_recording := true })
    ∧ (∀ vc vci vco m0 ai ao ac aci aco rm1,
        g.recording_format = some RecordingFormat.AVI →
        dictLookup g.filters FilterType.video_compressor = some vc →
        vc.get_in = Except.ok vci →
        vc.get_out = Except.ok vco →
        mux.get_in = Except.ok m0 →
        dictLookup g.filters FilterType.audio_input = some ai →
        ai.get_out = Except.ok ao →
        dictLookup g.filters FilterType.audio_compressor = some ac →
        ac.get_in = Except.ok aci →
        ac.get_out = Except.ok aco →
        mux.reload_pins.get_in 1 = Except.ok rm1 →
        g.prepare_recording_graph tee = Except.ok
          { g with
              filters := dictInsert g.filters FilterType.muxer mux.reload_pins,
              connections := g.connections ++ [(cp, vci), (vco, m0), (pp, ri), (ao, aci), (aco, rm1)],
              is_recording := true }) := by
  refine ⟨?_, ?_, ?_⟩
  · intro ai m0 m1 ao hfmt hai hm1 hm0 hao
    simp [FilterGraph.prepare_recording_graph, FilterGraph.get_capture_and_preview_pins,
      FilterGraph.lookupE, FilterGraph.connect, hvi, hr, hmux, hpp, hcp, hri,
      hfmt, hai, hm1, hm0, hao, Bind.bind, Except.bind]
  · intro vc vci vco m0 hfmt hvc hvci hvco hm0 hai
    simp [FilterGraph.prepare_recording_graph, FilterGraph.get_capture_and_preview_pins,
      FilterGraph.lookupE, FilterGraph.connect, hvi, hr, hmux, hpp, hcp, hri,
      hfmt, hvc, hvci, hvco, hm0, hai, Bind.bind, Except.bind]
  · intro vc vci vco m0 ai ao ac aci aco rm1 hfmt hvc hvci hvco hm0 hai hao hac haci haco hrm1
    simp [FilterGraph.prepare_recording_graph, FilterGraph.get_capture_and_preview_pins,
      FilterGraph.lookupE, FilterGraph.connect, hvi, hr, hmux, hpp, hcp, hri,
      hfmt, hvc, hvci, hvco, hm0, hai, hao, hac, haci, haco, hrm1, Bind.bind, Except.bind]

/-- The video input of the C3 witness: dedicated preview pin 11 and
capture pin 12 both found. -/
def viRec : Filter :=
  { Name := "cam", out_pins := [10], in_pins := [],
    find_preview := Except.ok 11, find_capture := Except.ok 12 }

/-- The render of the C3 witness: input pin 20. -/
def renderRec : Filter := { Name := "Render", out_pins := [], in_pins := [20] }

/-- The AVI muxer of the C3 witness: one input pin 40 at construction; once
its video input is connected the native filter exposes a second input pin
41, which is what its `EnumPins` stream reports at reload time. -/
def muxRec : Filter :=
  { Name := "Muxer", out_pins := [45], in_pins := [40],
    enum_pins := [(40, 0), (41, 0), (45, 1)] }

/-- The video compressor of the C3 witness: pins 50 (in) and 51 (out). -/
def vcRec : Filter := { Name := "Compressor", out_pins := [51], in_pins := [50] }

/-- The audio input of the C3 witness: output pin 60. -/
def aiRec : Filter := { Name := "mic", out_pins := [60], in_pins := [] }

/-- The audio compressor of the C3 witness: pins 70 (in) and 71 (out). -/
def acRec : Filter := { Name := "AudioComp", out_pins := [71], in_pins := [70] }

/-- A smart tee for the C3 witness; unused because both dedicated pins of
`viRec` exist. -/
def teeRec : Filter := { Name := "Smart Tee", out_pins := [], in_pins := [] }

/-- The C3 witness input graph: a full AVI recording setup with audio. -/
def gRec : FilterGraph :=
  { filters := [(FilterType.video_input, viRec), (FilterType.render, renderRec),
      (FilterType.muxer, muxRec), (FilterType.video_compressor, vcRec),
      (FilterType.audio_input, aiRec), (FilterType.audio_compressor, acRec)],
    connections := [], recording_format := some RecordingFormat.AVI, is_recording := false }

/-- The AVI-with-audio topology the C3 witness must produce: capture 12 ->
compressor 50, compressor 51 -> muxer 40, preview 11 -> render 20, mic 60
-> audio compressor 70, audio compressor 71 -> reloaded muxer pin 41; the
muxer's pins are reloaded and recording is on. -/
def gRecExpected : FilterGraph :=
  { filters := [(FilterType.video_input, viRec), (FilterType.render, renderRec),
      (FilterType.muxer,
        { Name := "Muxer", out_pins := [45], in_pins := [40, 41],
          enum_pins := [(40, 0), (41, 0), (45, 1)] }),
      (FilterType.video_compressor, vcRec),
      (FilterType.audio_input, aiRec), (FilterType.audio_compressor, acRec)],
    connections := [(12, 50), (51, 40), (11, 20), (60, 70), (71, 41)],
    recording_format := some RecordingFormat.AVI, is_recording := true }

/-- C3 witness: the concrete AVI-with-audio graph builds exactly the
expected recording topology. -/
theorem prepare_recording_graph_topology_witness :
    gRec.prepare_recording_graph teeRec = Except.ok gRecExpected := by
  have h := (prepare_recording_graph_topology gRec viRec renderRec muxRec teeRec 11 12 20
    rfl rfl rfl rfl rfl rfl).2.2 vcRec 50 51 40 aiRec 60 acRec 70 71 41
    rfl rfl rfl rfl rfl rfl rfl rfl rfl rfl rfl
  rw [h]
  rfl

end PyGrabber
